import Mathlib

/-!
Verification of the weather API gateway (src/src/index.ts): an expiring
in-memory cache (`WeatherCache`), a gateway (`WeatherAPI`) with three
operations guarded by the cache, the error handler, and the forecast
route's day-count parsing.

Modelling conventions:
* JavaScript `Date.now()` timestamps are `Nat` milliseconds, passed
  explicitly to each operation (one parameter per `Date.now()` call site).
* The JS `Map<string, CacheEntry<any>>` is modelled as an association
  list `List (String × CacheEntry α)`; only per-key `get`/`set`/`delete`
  are observed by the source, and those are modelled exactly (`set`
  replaces in place, `delete` removes the entry, `get` finds by key).
* Numeric payload fields are `ℚ`: the gateway copies them without any
  arithmetic, so the carrier is irrelevant to every statement below.
* Upstream HTTP (`axios.get`) is a function from the varying request
  parameters to `Except UpstreamFailure payload`; the constant request
  parts (base url, api key, the `aqi: 'yes'` flag) are attached to every
  request identically in the source and are not modelled.
* The cache is type-erased in the source (`entry.data as T`); the model
  stores a sum `CacheValue` and the gateway returns whatever was cached,
  mirroring the unchecked cast.
-/

set_option autoImplicit false

universe u

/-- Lookup in the association-list model of the JS `Map`: the value of
the first (and by construction only) entry whose key matches. -/
def mapGet {β : Type u} (m : List (String × β)) (k : String) : Option β :=
  match m with
  | [] => none
  | (k', v) :: rest => if k' = k then some v else mapGet rest k

/-- `Map.set`: replace the entry for `k` in place if present, else append. -/
def mapSet {β : Type u} (m : List (String × β)) (k : String) (v : β) :
    List (String × β) :=
  match m with
  | [] => [(k, v)]
  | (k', v') :: rest =>
      if k' = k then (k, v) :: rest else (k', v') :: mapSet rest k v

/-- `Map.delete`: remove the entry for `k`, preserving the others. -/
def mapDelete {β : Type u} (m : List (String × β)) (k : String) :
    List (String × β) :=
  match m with
  | [] => []
  | (k', v') :: rest =>
      if k' = k then rest else (k', v') :: mapDelete rest k

/-- A key occurs at most once in the map model. -/
def mapWF {β : Type u} (m : List (String × β)) : Prop :=
  m.Pairwise (fun p q => p.1 ≠ q.1)

theorem mapGet_mapSet_self {β : Type u} (m : List (String × β)) (k : String)
    (v : β) : mapGet (mapSet m k v) k = some v := by
  induction m with
  | nil => simp [mapSet, mapGet]
  | cons p rest ih =>
      obtain ⟨k', v'⟩ := p
      by_cases h : k' = k
      · simp [mapSet, mapGet, h]
      · simp [mapSet, mapGet, h, ih]

theorem mapGet_mapSet_ne {β : Type u} (m : List (String × β)) (k k' : String)
    (v : β) (h : k ≠ k') : mapGet (mapSet m k v) k' = mapGet m k' := by
  induction m with
  | nil => simp [mapSet, mapGet, h]
  | cons p rest ih =>
      obtain ⟨k₀, v₀⟩ := p
      by_cases h₀ : k₀ = k
      · subst h₀
        simp [mapSet, mapGet, h]
      · simp [mapSet, mapGet, h₀, ih]

theorem mapGet_mapDelete_self {β : Type u} (m : List (String × β))
    (k : String) (hwf : mapWF m) : mapGet (mapDelete m k) k = none := by
  induction m with
  | nil => simp [mapDelete, mapGet]
  | cons p rest ih =>
      obtain ⟨k₀, v₀⟩ := p
      rw [mapWF, List.pairwise_cons] at hwf
      by_cases h₀ : k₀ = k
      · subst h₀
        rw [mapDelete, if_pos rfl]
        have hrest : ∀ q ∈ rest, q.1 ≠ k₀ := fun q hq => (hwf.1 q hq).symm
        clear ih hwf
        induction rest with
        | nil => rfl
        | cons q rest' ih' =>
            obtain ⟨k₁, v₁⟩ := q
            have hq := hrest (k₁, v₁) (List.mem_cons_self _ _)
            rw [mapGet, if_neg hq]
            exact ih' (fun r hr => hrest r (List.mem_cons_of_mem _ hr))
      · rw [mapDelete, if_neg h₀, mapGet, if_neg h₀]
        exact ih hwf.2

theorem mapGet_mapDelete_ne {β : Type u} (m : List (String × β))
    (k k' : String) (h : k ≠ k') :
    mapGet (mapDelete m k) k' = mapGet m k' := by
  induction m with
  | nil => simp [mapDelete, mapGet]
  | cons p rest ih =>
      obtain ⟨k₀, v₀⟩ := p
      by_cases h₀ : k₀ = k
      · subst h₀
        simp [mapDelete, mapGet, h]
      · simp [mapDelete, mapGet, h₀, ih]

theorem mapWF_mapSet {β : Type u} (m : List (String × β)) (k : String)
    (v : β) (hwf : mapWF m) : mapWF (mapSet m k v) := by
  induction m with
  | nil => simp [mapSet, mapWF]
  | cons p rest ih =>
      obtain ⟨k₀, v₀⟩ := p
      rw [mapWF, List.pairwise_cons] at hwf
      by_cases h₀ : k₀ = k
      · subst h₀
        rw [mapSet, if_pos rfl, mapWF, List.pairwise_cons]
        exact hwf
      · rw [mapSet, if_neg h₀, mapWF, List.pairwise_cons]
        constructor
        · intro q hq
          clear ih
          induction rest with
          | nil => simp [mapSet] at hq; simp [hq, h₀]
          | cons r rest' ih' =>
              obtain ⟨k₁, v₁⟩ := r
              by_cases h₁ : k₁ = k
              · rw [mapSet, if_pos h₁] at hq
                rcases List.mem_cons.mp hq with h | h
                · simp [h, h₀]
                · exact hwf.1 _ (List.mem_cons_of_mem _ h)
              · rw [mapSet, if_neg h₁] at hq
                rcases List.mem_cons.mp hq with h | h
                · exact hwf.1 _ (h ▸ List.mem_cons_self _ _)
                · exact ih'
                    ⟨fun q' hq' => hwf.1 q' (List.mem_cons_of_mem _ hq'),
                      (List.pairwise_cons.mp hwf.2).2⟩ h
        · exact ih hwf.2

theorem mapWF_mapDelete {β : Type u} (m : List (String × β)) (k : String)
    (hwf : mapWF m) : mapWF (mapDelete m k) := by
  induction m with
  | nil => simp [mapDelete, mapWF]
  | cons p rest ih =>
      obtain ⟨k₀, v₀⟩ := p
      rw [mapWF, List.pairwise_cons] at hwf
      by_cases h₀ : k₀ = k
      · rw [mapDelete, if_pos h₀]
        exact hwf.2
      · rw [mapDelete, if_neg h₀, mapWF, List.pairwise_cons]
        refine ⟨fun q hq => ?_, ih hwf.2⟩
        have : q ∈ rest := by
          clear ih
          induction rest with
          | nil => simp [mapDelete] at hq
          | cons r rest' ih' =>
              obtain ⟨k₁, v₁⟩ := r
              by_cases h₁ : k₁ = k
              · rw [mapDelete, if_pos h₁] at hq
                exact List.mem_cons_of_mem _ hq
              · rw [mapDelete, if_neg h₁] at hq
                rcases List.mem_cons.mp hq with h | h
                · exact h ▸ List.mem_cons_self _ _
                · exact List.mem_cons_of_mem _
                    (ih' ⟨fun q' hq' => hwf.1 q' (List.mem_cons_of_mem _ hq'),
                      (List.pairwise_cons.mp hwf.2).2⟩ h)
        exact hwf.1 q this

/-- `CacheEntry<T>` from the source: a value plus its write timestamp. -/
structure CacheEntry (α : Type u) where
  data : α
  timestamp : Nat

/-- `WeatherCache`: the map plus the fixed `cacheDuration` (ms). -/
structure WeatherCache (α : Type u) where
  cache : List (String × CacheEntry α)
  cacheDuration : Nat

/-- The `WeatherCache` constructor: empty map, given duration. -/
def WeatherCache.mkCache (α : Type u) (cacheDurationMs : Nat) :
    WeatherCache α :=
  ⟨[], cacheDurationMs⟩

/-- `WeatherCache.get`, with `now` standing for its `Date.now()` call:
returns the entry's data if present and fresh; deletes the entry and
returns `none` if present but stale; returns `none` otherwise. Returns
the updated cache alongside. -/
def WeatherCache.get {α : Type u} (c : WeatherCache α) (key : String)
    (now : Nat) : Option α × WeatherCache α :=
  match mapGet c.cache key with
  | some entry =>
      if now - entry.timestamp < c.cacheDuration then
        (some entry.data, c)
      else
        (none, { c with cache := mapDelete c.cache key })
  | none => (none, c)

/-- `WeatherCache.set`, with `now` standing for its `Date.now()` call:
stores the value under the key with the current timestamp. -/
def WeatherCache.set {α : Type u} (c : WeatherCache α) (key : String)
    (data : α) (now : Nat) : WeatherCache α :=
  { c with cache := mapSet c.cache key ⟨data, now⟩ }

/-- Provider `condition` sub-object (`{ text, icon, code }`). -/
structure RawCondition where
  text : String
  icon : String
  code : Int
deriving DecidableEq

/-- Provider `air_quality` sub-object, copied as-is by the gateway.
The hyphenated provider names `us-epa-index` / `gb-defra-index` are not
valid Lean identifiers and are spelled `usEpaIndex` / `gbDefraIndex`. -/
structure AirQuality where
  co : ℚ
  no2 : ℚ
  o3 : ℚ
  so2 : ℚ
  pm2_5 : ℚ
  pm10 : ℚ
  usEpaIndex : Int
  gbDefraIndex : Int
deriving DecidableEq

/-- Provider `location` object (snake-case wire format). -/
structure RawLocation where
  name : String
  region : String
  country : String
  lat : ℚ
  lon : ℚ
  localtime : String
deriving DecidableEq

/-- Provider `current` object (snake-case wire format). -/
structure RawCurrent where
  temp_c : ℚ
  temp_f : ℚ
  condition : RawCondition
  wind_kph : ℚ
  wind_dir : String
  humidity : ℚ
  feelslike_c : ℚ
  feelslike_f : ℚ
  uv : ℚ
  air_quality : AirQuality
deriving DecidableEq

/-- Provider payload for `/current.json`. -/
structure RawCurrentPayload where
  location : RawLocation
  current : RawCurrent
deriving DecidableEq

/-- Provider per-hour record inside a forecast day. -/
structure RawHour where
  time : String
  temp_c : ℚ
  condition : RawCondition
  wind_kph : ℚ
  wind_dir : String
  precip_mm : ℚ
  humidity : ℚ
deriving DecidableEq

/-- Provider per-day aggregate record (`day.…` fields). -/
structure RawDay where
  maxtemp_c : ℚ
  mintemp_c : ℚ
  avgtemp_c : ℚ
  maxwind_kph : ℚ
  totalprecip_mm : ℚ
  avghumidity : ℚ
  condition : RawCondition
deriving DecidableEq

/-- Provider `astro` record. -/
structure RawAstro where
  sunrise : String
  sunset : String
deriving DecidableEq

/-- One element of the provider's `forecast.forecastday` list. -/
structure RawForecastDay where
  date : String
  day : RawDay
  astro : RawAstro
  hour : List RawHour
deriving DecidableEq

/-- Provider payload for `/forecast.json`; `forecastday` is the
`forecast.forecastday` list. -/
structure RawForecastPayload where
  location : RawLocation
  forecastday : List RawForecastDay
deriving DecidableEq

/-- One element of the provider's `/search.json` response array. -/
structure RawSearchLocation where
  name : String
  region : String
  country : String
  lat : ℚ
  lon : ℚ
deriving DecidableEq

/-- Internal `Location`; `localTime?` is optional in the source. -/
structure Location where
  name : String
  region : String
  country : String
  lat : ℚ
  lon : ℚ
  localTime : Option String
deriving DecidableEq

/-- Internal `CurrentWeather` schema. -/
structure CurrentWeather where
  tempC : ℚ
  tempF : ℚ
  condition : String
  windKph : ℚ
  windDir : String
  humidity : ℚ
  feelsLikeC : ℚ
  feelsLikeF : ℚ
  uv : ℚ
  airQuality : AirQuality
deriving DecidableEq

/-- Internal `HourlyForecast` schema. -/
structure HourlyForecast where
  time : String
  tempC : ℚ
  condition : String
  windKph : ℚ
  windDir : String
  precipitation : ℚ
  humidity : ℚ
deriving DecidableEq

/-- Internal `DailyForecast` schema. -/
structure DailyForecast where
  date : String
  maxTempC : ℚ
  minTempC : ℚ
  avgTempC : ℚ
  maxWindKph : ℚ
  totalPrecipMm : ℚ
  avgHumidity : ℚ
  condition : String
  sunrise : String
  sunset : String
  hourly : List HourlyForecast
deriving DecidableEq

/-- Internal `WeatherResponse` schema. -/
structure WeatherResponse where
  location : Location
  current : CurrentWeather
deriving DecidableEq

/-- Internal `ForecastResponse` schema. -/
structure ForecastResponse where
  location : Location
  forecast : List DailyForecast
deriving DecidableEq

/-- The field-by-field construction of `weatherData` in
`getCurrentWeather` (source lines 146-167). -/
def mapCurrentPayload (p : RawCurrentPayload) : WeatherResponse :=
  { location :=
      { name := p.location.name
        region := p.location.region
        country := p.location.country
        lat := p.location.lat
        lon := p.location.lon
        localTime := some p.location.localtime }
    current :=
      { tempC := p.current.temp_c
        tempF := p.current.temp_f
        condition := p.current.condition.text
        windKph := p.current.wind_kph
        windDir := p.current.wind_dir
        humidity := p.current.humidity
        feelsLikeC := p.current.feelslike_c
        feelsLikeF := p.current.feelslike_f
        uv := p.current.uv
        airQuality := p.current.air_quality } }

/-- The per-hour mapping inside `getForecast` (source lines 209-217). -/
def mapHour (hour : RawHour) : HourlyForecast :=
  { time := hour.time
    tempC := hour.temp_c
    condition := hour.condition.text
    windKph := hour.wind_kph
    windDir := hour.wind_dir
    precipitation := hour.precip_mm
    humidity := hour.humidity }

/-- The per-day mapping inside `getForecast` (source lines 198-218). -/
def mapDay (day : RawForecastDay) : DailyForecast :=
  { date := day.date
    maxTempC := day.day.maxtemp_c
    minTempC := day.day.mintemp_c
    avgTempC := day.day.avgtemp_c
    maxWindKph := day.day.maxwind_kph
    totalPrecipMm := day.day.totalprecip_mm
    avgHumidity := day.day.avghumidity
    condition := day.day.condition.text
    sunrise := day.astro.sunrise
    sunset := day.astro.sunset
    hourly := day.hour.map mapHour }

/-- The construction of `forecastData` in `getForecast` (source lines
190-219); note the built location carries no `localTime`. -/
def mapForecastPayload (p : RawForecastPayload) : ForecastResponse :=
  { location :=
      { name := p.location.name
        region := p.location.region
        country := p.location.country
        lat := p.location.lat
        lon := p.location.lon
        localTime := none }
    forecast := p.forecastday.map mapDay }

/-- The per-entry mapping in `searchLocations` (source lines 233-239);
no `localTime` field is produced. -/
def mapSearchLocation (l : RawSearchLocation) : Location :=
  { name := l.name
    region := l.region
    country := l.country
    lat := l.lat
    lon := l.lon
    localTime := none }

/-- An upstream (axios) failure: the optional HTTP status of the
response and the optional `error.message` of its JSON body
(`response?.status` / `response?.data?.error?.message`). -/
structure UpstreamFailure where
  status : Option Nat
  message : Option String
deriving DecidableEq

/-- The upstream provider: one function per endpoint, taking the
request parameters that vary per call. The api key, base url and
`aqi: 'yes'` flag are constant on every request and omitted. -/
structure Upstream where
  current : String → Except UpstreamFailure RawCurrentPayload
  forecastDays : String → Int → Except UpstreamFailure RawForecastPayload
  search : String → Except UpstreamFailure (List RawSearchLocation)

/-- The value type stored in the type-erased cache
(`Map<string, CacheEntry<any>>` holds both response shapes). -/
inductive CacheValue where
  | weather (w : WeatherResponse)
  | fore (f : ForecastResponse)
deriving DecidableEq

/-- Result of one gateway operation: the value or the propagated
upstream failure, the cache state afterwards, and how many upstream
requests the operation issued. -/
structure GatewayResult (α : Type) where
  result : Except UpstreamFailure α
  cache : WeatherCache CacheValue
  upstreamCalls : Nat

/-- The cache key of `getCurrentWeather`: `current_${location}`. -/
def currentKey (location : String) : String :=
  "current_" ++ location

/-- The cache key of `getForecast`: `forecast_${location}_${days}`. -/
def forecastKey (location : String) (days : Int) : String :=
  "forecast_" ++ location ++ "_" ++ toString days

/-- `WeatherAPI.getCurrentWeather` (source lines 130-171). `tGet` and
`tSet` are the `Date.now()` readings inside `cache.get` and `cache.set`
(the upstream await sits between them). On a cache hit the source
returns the stored `any` value cast to the expected type; the model
returns the stored `CacheValue` unexamined, mirroring that cast. -/
def getCurrentWeather (up : Upstream) (st : WeatherCache CacheValue)
    (location : String) (tGet tSet : Nat) : GatewayResult CacheValue :=
  let cacheKey := currentKey location
  let looked := st.get cacheKey tGet
  match looked.1 with
  | some cachedData => ⟨.ok cachedData, looked.2, 0⟩
  | none =>
      match up.current location with
      | .error e => ⟨.error e, looked.2, 1⟩
      | .ok raw =>
          let weatherData := CacheValue.weather (mapCurrentPayload raw)
          ⟨.ok weatherData, looked.2.set cacheKey weatherData tSet, 1⟩

/-- `WeatherAPI.getForecast` (source lines 173-223), with the same
conventions as `getCurrentWeather`. -/
def getForecast (up : Upstream) (st : WeatherCache CacheValue)
    (location : String) (days : Int) (tGet tSet : Nat) :
    GatewayResult CacheValue :=
  let cacheKey := forecastKey location days
  let looked := st.get cacheKey tGet
  match looked.1 with
  | some cachedData => ⟨.ok cachedData, looked.2, 0⟩
  | none =>
      match up.forecastDays location days with
      | .error e => ⟨.error e, looked.2, 1⟩
      | .ok raw =>
          let forecastData := CacheValue.fore (mapForecastPayload raw)
          ⟨.ok forecastData, looked.2.set cacheKey forecastData tSet, 1⟩

/-- `WeatherAPI.searchLocations` (source lines 225-240): always calls
upstream, never touches the cache. -/
def searchLocations (up : Upstream) (st : WeatherCache CacheValue)
    (query : String) : GatewayResult (List Location) :=
  match up.search query with
  | .error e => ⟨.error e, st, 1⟩
  | .ok raws => ⟨.ok (raws.map mapSearchLocation), st, 1⟩

/-- JS `x || d` for a number already known to be a number or absent
(`none` models both `undefined` and `NaN`); `0` is falsy. -/
def jsOrInt (x : Option Int) (d : Int) : Int :=
  match x with
  | none => d
  | some n => if n = 0 then d else n

/-- JS `x || d` for an optional status number; `0` is falsy. -/
def jsOrNat (x : Option Nat) (d : Nat) : Nat :=
  match x with
  | none => d
  | some n => if n = 0 then d else n

/-- JS `x || d` for an optional string; the empty string is falsy. -/
def jsOrString (x : Option String) (d : String) : String :=
  match x with
  | none => d
  | some s => if s = "" then d else s

/-- The axios branch of `errorHandler` (source lines 249-259): HTTP
status `response?.status || 500` and body message
`response?.data?.error?.message || "An error occurred with the weather
service"`. All gateway failures are axios errors. -/
def errorHandler (e : UpstreamFailure) : Nat × String :=
  (jsOrNat e.status 500,
    jsOrString e.message "An error occurred with the weather service")

/-- Accumulate a run of leading decimal digits; `none` when there are
none (the `NaN` outcome of that stage of `parseInt`). -/
def parseDecDigits (l : List Char) : Option Nat :=
  let ds := l.takeWhile Char.isDigit
  if ds.isEmpty then none
  else some (ds.foldl (fun a c => a * 10 + (c.toNat - 48)) 0)

/-- A hexadecimal digit, as accepted by `parseInt` after `0x`. -/
def isHexDigitChar (c : Char) : Bool :=
  c.isDigit || ('a' ≤ c && c ≤ 'f') || ('A' ≤ c && c ≤ 'F')

/-- Numeric value of a hexadecimal digit. -/
def hexDigitVal (c : Char) : Nat :=
  if c.isDigit then c.toNat - 48
  else if 'a' ≤ c && c ≤ 'f' then c.toNat - 87
  else c.toNat - 55

/-- Accumulate a run of leading hexadecimal digits. -/
def parseHexDigits (l : List Char) : Option Nat :=
  let ds := l.takeWhile isHexDigitChar
  if ds.isEmpty then none
  else some (ds.foldl (fun a c => a * 16 + hexDigitVal c) 0)

/-- Model of JS `parseInt(s)` with no radix argument: skip leading
whitespace (ASCII subset modelled), take an optional sign, then either
a `0x`/`0X`-prefixed hexadecimal digit run or a decimal digit run;
trailing characters are ignored; `none` models `NaN` (no digits). -/
def jsParseInt (s : String) : Option Int :=
  let l := s.data.dropWhile (fun c => c = ' ' || c = '\t' || c = '\n' || c = '\r')
  let signed : Int × List Char :=
    match l with
    | '-' :: r => (-1, r)
    | '+' :: r => (1, r)
    | r => (1, r)
  let mag : Option Nat :=
    match signed.2 with
    | '0' :: 'x' :: r => parseHexDigits r
    | '0' :: 'X' :: r => parseHexDigits r
    | r => parseDecDigits r
  mag.map (fun n => signed.1 * n)

/-- The forecast route's day count (source line 272):
`parseInt(req.query.days as string) || 3`. An absent query parameter is
`undefined`, whose `parseInt` is `NaN`; `NaN` and `0` are falsy. -/
def forecastRouteDays (daysParam : Option String) : Int :=
  match daysParam with
  | none => 3
  | some s => jsOrInt (jsParseInt s) 3

/-- The `GET /api/weather/forecast/:location` handler body (source
lines 270-278): parse the day count, call `getForecast` with it. -/
def forecastRoute (up : Upstream) (st : WeatherCache CacheValue)
    (location : String) (daysParam : Option String) (tGet tSet : Nat) :
    GatewayResult CacheValue :=
  getForecast up st location (forecastRouteDays daysParam) tGet tSet

theorem string_append_left_cancel (u s t : String) (h : u ++ s = u ++ t) :
    s = t := by
  apply String.ext
  have hd := congrArg String.data h
  rw [String.data_append, String.data_append] at hd
  exact List.append_cancel_left hd

/-- Claim C1: on a well-formed cache, after `set k v` at time `T`,
`get k` at any `t` with `T ≤ t < T + duration` returns `v` unchanged,
and at any `t ≥ T + duration` returns `none` and removes the entry from
the map; in general, when `get` finds an entry whose age is at least
the duration it returns `none` and deletes that entry as its only side
effect. `get` is a total function, so it has no other failure mode. -/
theorem cache_freshness {α : Type u} (c : WeatherCache α) (k : String)
    (v : α) (T t : Nat) (hwf : mapWF c.cache) (hT : T ≤ t) :
    (t < T + c.cacheDuration → ((c.set k v T).get k t).1 = some v)
  ∧ (T + c.cacheDuration ≤ t →
      ((c.set k v T).get k t).1 = none
      ∧ mapGet ((c.set k v T).get k t).2.cache k = none)
  ∧ (∀ e : CacheEntry α, mapGet c.cache k = some e →
      c.cacheDuration ≤ t - e.timestamp →
      (c.get k t).1 = none ∧ mapGet ((c.get k t).2.cache) k = none) := by
  refine ⟨?_, ?_, ?_⟩
  · intro hfresh
    have hlt : t - T < c.cacheDuration := by omega
    simp [WeatherCache.set, WeatherCache.get, mapGet_mapSet_self, hlt]
  · intro hstale
    have hge : ¬ (t - T < c.cacheDuration) := by omega
    refine ⟨?_, ?_⟩
    · simp [WeatherCache.set, WeatherCache.get, mapGet_mapSet_self, hge]
    · simp only [WeatherCache.set, WeatherCache.get, mapGet_mapSet_self,
        hge, if_false]
      exact mapGet_mapDelete_self _ _ (mapWF_mapSet _ _ _ hwf)
  · intro e he hage
    have hge : ¬ (t - e.timestamp < c.cacheDuration) := by omega
    refine ⟨?_, ?_⟩
    · simp [WeatherCache.get, he, hge]
    · simp only [WeatherCache.get, he, hge, if_false]
      exact mapGet_mapDelete_self _ _ hwf

/-- Witness for C1: duration 5, written at 7, read at 10 (fresh) and at
12 (expired). -/
theorem cache_freshness_witness :
    ((((WeatherCache.mkCache Nat 5).set "k" 3 7).get "k" 10).1 = some 3)
  ∧ ((((WeatherCache.mkCache Nat 5).set "k" 3 7).get "k" 12).1 = none) :=
  ⟨(cache_freshness (WeatherCache.mkCache Nat 5) "k" 3 7 10
      List.Pairwise.nil (by decide)).1 (by decide),
   (((cache_freshness (WeatherCache.mkCache Nat 5) "k" 3 7 12
      List.Pairwise.nil (by decide)).2.1) (by decide)).1⟩

/-- Claim C2: a later `set` on the same key unconditionally replaces the
entry and restarts the freshness window from its own timestamp: `get`
within `[T2, T2 + duration)` returns `v2` and never `v1`, even when the
first entry was still fresh. -/
theorem cache_overwrite {α : Type u} (c : WeatherCache α) (k : String)
    (v1 v2 : α) (T1 T2 t : Nat) (h12 : T1 < T2) (hT : T2 ≤ t)
    (hfresh : t < T2 + c.cacheDuration) :
    ((((c.set k v1 T1).set k v2 T2).get k t).1 = some v2)
  ∧ (v1 ≠ v2 → (((c.set k v1 T1).set k v2 T2).get k t).1 ≠ some v1) := by
  have hlt : t - T2 < c.cacheDuration := by omega
  have hv : (((c.set k v1 T1).set k v2 T2).get k t).1 = some v2 := by
    simp [WeatherCache.set, WeatherCache.get, mapGet_mapSet_self, hlt]
  refine ⟨hv, fun hne hc => ?_⟩
  rw [hv] at hc
  exact hne (Option.some.inj hc).symm

/-- Witness for C2: duration 10, first write at 0, overwrite at 3, read
at 4 (inside both windows) returns the second value. -/
theorem cache_overwrite_witness :
    ((((WeatherCache.mkCache Nat 10).set "k" 1 0).set "k" 2 3).get "k" 4).1
      = some 2 :=
  (cache_overwrite (WeatherCache.mkCache Nat 10) "k" 1 2 0 3 4
    (by decide) (by decide) (by decide)).1

theorem getCurrentWeather_calls_of_miss (up : Upstream)
    (st : WeatherCache CacheValue) (L : String) (tg ts : Nat)
    (h : mapGet st.cache (currentKey L) = none) :
    (getCurrentWeather up st L tg ts).upstreamCalls = 1 := by
  cases hup : up.current L <;>
    simp [getCurrentWeather, WeatherCache.get, h, hup]

theorem getForecast_calls_of_miss (up : Upstream)
    (st : WeatherCache CacheValue) (L : String) (d : Int) (tg ts : Nat)
    (h : mapGet st.cache (forecastKey L d) = none) :
    (getForecast up st L d tg ts).upstreamCalls = 1 := by
  cases hup : up.forecastDays L d <;>
    simp [getForecast, WeatherCache.get, h, hup]

theorem getCurrentWeather_cache_other (up : Upstream)
    (st : WeatherCache CacheValue) (L : String) (tg ts : Nat) (k : String)
    (hk : k ≠ currentKey L) :
    mapGet (getCurrentWeather up st L tg ts).cache.cache k
      = mapGet st.cache k := by
  cases hm : mapGet st.cache (currentKey L) with
  | none =>
      cases hup : up.current L <;>
        simp [getCurrentWeather, WeatherCache.get, WeatherCache.set, hm, hup,
          mapGet_mapSet_ne _ _ _ _ (Ne.symm hk)]
  | some entry =>
      by_cases hfr : tg - entry.timestamp < st.cacheDuration
      · simp [getCurrentWeather, WeatherCache.get, hm, hfr]
      · cases hup : up.current L <;>
          simp [getCurrentWeather, WeatherCache.get, WeatherCache.set, hm,
            hfr, hup, mapGet_mapSet_ne _ _ _ _ (Ne.symm hk),
            mapGet_mapDelete_ne _ _ _ (Ne.symm hk)]

theorem getForecast_cache_other (up : Upstream)
    (st : WeatherCache CacheValue) (L : String) (d : Int) (tg ts : Nat)
    (k : String) (hk : k ≠ forecastKey L d) :
    mapGet (getForecast up st L d tg ts).cache.cache k
      = mapGet st.cache k := by
  cases hm : mapGet st.cache (forecastKey L d) with
  | none =>
      cases hup : up.forecastDays L d <;>
        simp [getForecast, WeatherCache.get, WeatherCache.set, hm, hup,
          mapGet_mapSet_ne _ _ _ _ (Ne.symm hk)]
  | some entry =>
      by_cases hfr : tg - entry.timestamp < st.cacheDuration
      · simp [getForecast, WeatherCache.get, hm, hfr]
      · cases hup : up.forecastDays L d <;>
          simp [getForecast, WeatherCache.get, WeatherCache.set, hm,
            hfr, hup, mapGet_mapSet_ne _ _ _ _ (Ne.symm hk),
            mapGet_mapDelete_ne _ _ _ (Ne.symm hk)]

/-- Claim C3: cache keys compose the operation tag with the raw
parameters and are never normalized: `currentKey` is injective, so
"Paris" and "paris" are distinct entries, and the forecast key contains
the day count, so ("Tokyo", 3) and ("Tokyo", 5) are distinct entries;
behaviorally, populating one entry leaves the other a miss, forcing an
upstream call on its first access. -/
theorem cache_key_sensitivity :
    (∀ L1 L2 : String, L1 ≠ L2 → currentKey L1 ≠ currentKey L2)
  ∧ currentKey "Paris" ≠ currentKey "paris"
  ∧ forecastKey "Tokyo" 3 ≠ forecastKey "Tokyo" 5
  ∧ (∀ (up : Upstream) (D tg ts tg' ts' : Nat),
      (getCurrentWeather up
        (getCurrentWeather up (WeatherCache.mkCache CacheValue D)
          "Paris" tg ts).cache
        "paris" tg' ts').upstreamCalls = 1)
  ∧ (∀ (up : Upstream) (D tg ts tg' ts' : Nat),
      (getForecast up
        (getForecast up (WeatherCache.mkCache CacheValue D)
          "Tokyo" 3 tg ts).cache
        "Tokyo" 5 tg' ts').upstreamCalls = 1) := by
  refine ⟨?_, by decide, by decide, ?_, ?_⟩
  · intro L1 L2 hne heq
    exact hne (string_append_left_cancel "current_" L1 L2 heq)
  · intro up D tg ts tg' ts'
    apply getCurrentWeather_calls_of_miss
    rw [getCurrentWeather_cache_other up _ "Paris" tg ts _ (by decide)]
    rfl
  · intro up D tg ts tg' ts'
    apply getForecast_calls_of_miss
    rw [getForecast_cache_other up _ "Tokyo" 3 tg ts _ (by decide)]
    rfl

/-- Witness for C3 at concrete distinct locations. -/
theorem cache_key_sensitivity_witness :
    currentKey "a" ≠ currentKey "b" :=
  cache_key_sensitivity.1 "a" "b" (by decide)

/-- Claim C4: from a state with no entry for the location and a
succeeding upstream, the first `getCurrentWeather` issues one upstream
request and caches its mapped snapshot; a second call within the
freshness window issues zero upstream requests, returns the identical
stored value, and leaves the cache state unchanged. -/
theorem currentWeather_hit (up : Upstream) (st : WeatherCache CacheValue)
    (L : String) (raw : RawCurrentPayload) (tg ts t' ts' : Nat)
    (hmiss : mapGet st.cache (currentKey L) = none)
    (hup : up.current L = .ok raw)
    (hts : ts ≤ t') (hfresh : t' < ts + st.cacheDuration) :
    (getCurrentWeather up st L tg ts).result
      = .ok (.weather (mapCurrentPayload raw))
  ∧ (getCurrentWeather up st L tg ts).upstreamCalls = 1
  ∧ (getCurrentWeather up (getCurrentWeather up st L tg ts).cache
      L t' ts').result = .ok (.weather (mapCurrentPayload raw))
  ∧ (getCurrentWeather up (getCurrentWeather up st L tg ts).cache
      L t' ts').upstreamCalls = 0
  ∧ (getCurrentWeather up (getCurrentWeather up st L tg ts).cache
      L t' ts').cache = (getCurrentWeather up st L tg ts).cache := by
  have hlt : t' - ts < st.cacheDuration := by omega
  have h1 : getCurrentWeather up st L tg ts
      = ⟨.ok (.weather (mapCurrentPayload raw)),
         st.set (currentKey L) (.weather (mapCurrentPayload raw)) ts, 1⟩ := by
    simp [getCurrentWeather, WeatherCache.get, hmiss, hup]
  rw [h1]
  refine ⟨rfl, rfl, ?_, ?_, ?_⟩ <;>
    simp [getCurrentWeather, WeatherCache.get, WeatherCache.set,
      mapGet_mapSet_self, hlt]

/-- A fixed synthetic upstream payload for current conditions. -/
def samplePayload : RawCurrentPayload :=
  { location :=
      { name := "Berlin", region := "Berlin", country := "Germany"
        lat := 105/2, lon := 107/8, localtime := "2026-10-12 12:00" }
    current :=
      { temp_c := 37/2, temp_f := 653/10
        condition := { text := "Sunny", icon := "sun.png", code := 1000 }
        wind_kph := 23/2, wind_dir := "NW", humidity := 60
        feelslike_c := 18, feelslike_f := 644/10, uv := 4
        air_quality :=
          { co := 2301/10, no2 := 121/10, o3 := 54, so2 := 3/2
            pm2_5 := 8, pm10 := 12, usEpaIndex := 1, gbDefraIndex := 2 } } }

/-- A fixed upstream whose current-conditions endpoint succeeds with
`samplePayload`, whose forecast endpoint fails with status 401 and
message "Invalid key", and whose search endpoint returns no results. -/
def sampleUpstream : Upstream :=
  { current := fun _ => .ok samplePayload
    forecastDays := fun _ _ => .error ⟨some 401, some "Invalid key"⟩
    search := fun _ => .ok [] }

/-- Witness for C4: a concrete second call within a 900000 ms window
performs zero upstream requests. -/
theorem currentWeather_hit_witness :
    (getCurrentWeather sampleUpstream
      (getCurrentWeather sampleUpstream
        (WeatherCache.mkCache CacheValue 900000) "Berlin" 0 0).cache
      "Berlin" 1 1).upstreamCalls = 0 :=
  (currentWeather_hit sampleUpstream (WeatherCache.mkCache CacheValue 900000)
    "Berlin" samplePayload 0 0 1 1 rfl rfl (by decide) (by decide)).2.2.2.1

/-- Claim C5: `searchLocations` issues exactly one upstream request per
call, leaves the cache state unchanged, and a second consecutive call
again issues an upstream request. -/
theorem searchLocations_frame (up : Upstream) (st : WeatherCache CacheValue)
    (q : String) :
    (searchLocations up st q).upstreamCalls = 1
  ∧ (searchLocations up st q).cache = st
  ∧ (searchLocations up (searchLocations up st q).cache q).upstreamCalls
      = 1 := by
  cases h : up.search q <;> simp [searchLocations, h]

/-- Claim C6: the snapshot built by `getCurrentWeather` is a
field-by-field rename of the provider payload with no value
transformation, the `air_quality` sub-object copied as-is, the location
fields copied unchanged, and `localtime` becoming `localTime`. -/
theorem current_field_mapping (p : RawCurrentPayload) :
    (mapCurrentPayload p).current.tempC = p.current.temp_c
  ∧ (mapCurrentPayload p).current.tempF = p.current.temp_f
  ∧ (mapCurrentPayload p).current.condition = p.current.condition.text
  ∧ (mapCurrentPayload p).current.windKph = p.current.wind_kph
  ∧ (mapCurrentPayload p).current.windDir = p.current.wind_dir
  ∧ (mapCurrentPayload p).current.humidity = p.current.humidity
  ∧ (mapCurrentPayload p).current.feelsLikeC = p.current.feelslike_c
  ∧ (mapCurrentPayload p).current.feelsLikeF = p.current.feelslike_f
  ∧ (mapCurrentPayload p).current.uv = p.current.uv
  ∧ (mapCurrentPayload p).current.airQuality = p.current.air_quality
  ∧ (mapCurrentPayload p).location.name = p.location.name
  ∧ (mapCurrentPayload p).location.region = p.location.region
  ∧ (mapCurrentPayload p).location.country = p.location.country
  ∧ (mapCurrentPayload p).location.lat = p.location.lat
  ∧ (mapCurrentPayload p).location.lon = p.location.lon
  ∧ (mapCurrentPayload p).location.localTime = some p.location.localtime :=
  ⟨rfl, rfl, rfl, rfl, rfl, rfl, rfl, rfl, rfl, rfl, rfl, rfl, rfl, rfl,
    rfl, rfl⟩

/-- Claim C7: when the upstream call made by `getForecast` (or
`getCurrentWeather`) fails, the operation propagates exactly that
failure after a single upstream request (no retry, no partial result)
and creates no cache entry for the operation's key; the error handler
renders the failure as the upstream status with body message, or 500
with a generic message when neither is available. -/
theorem upstream_error_propagation :
    (∀ (up : Upstream) (st : WeatherCache CacheValue) (L : String)
        (d : Int) (tg ts : Nat) (e : UpstreamFailure), mapWF st.cache →
      (getForecast up st L d tg ts).result = .error e →
      up.forecastDays L d = .error e
      ∧ (getForecast up st L d tg ts).upstreamCalls = 1
      ∧ mapGet (getForecast up st L d tg ts).cache.cache (forecastKey L d)
          = none)
  ∧ (∀ (up : Upstream) (st : WeatherCache CacheValue) (L : String)
        (tg ts : Nat) (e : UpstreamFailure), mapWF st.cache →
      (getCurrentWeather up st L tg ts).result = .error e →
      up.current L = .error e
      ∧ (getCurrentWeather up st L tg ts).upstreamCalls = 1
      ∧ mapGet (getCurrentWeather up st L tg ts).cache.cache (currentKey L)
          = none)
  ∧ (∀ (s : Nat) (m : String), s ≠ 0 → m ≠ "" →
      errorHandler ⟨some s, some m⟩ = (s, m))
  ∧ errorHandler ⟨some 401, some "Invalid key"⟩ = (401, "Invalid key")
  ∧ errorHandler ⟨none, none⟩
      = (500, "An error occurred with the weather service") := by
  refine ⟨?_, ?_, ?_, by decide, by decide⟩
  · intro up st L d tg ts e hwf hres
    cases hm : mapGet st.cache (forecastKey L d) with
    | none =>
        cases hup : up.forecastDays L d with
        | error e' =>
            simp [getForecast, WeatherCache.get, hm, hup] at hres ⊢
            exact hres
        | ok raw => simp [getForecast, WeatherCache.get, hm, hup] at hres
    | some entry =>
        by_cases hfr : tg - entry.timestamp < st.cacheDuration
        · simp [getForecast, WeatherCache.get, hm, hfr] at hres
        · cases hup : up.forecastDays L d with
          | error e' =>
              simp [getForecast, WeatherCache.get, hm, hfr, hup] at hres ⊢
              exact ⟨hres, mapGet_mapDelete_self _ _ hwf⟩
          | ok raw =>
              simp [getForecast, WeatherCache.get, hm, hfr, hup] at hres
  · intro up st L tg ts e hwf hres
    cases hm : mapGet st.cache (currentKey L) with
    | none =>
        cases hup : up.current L with
        | error e' =>
            simp [getCurrentWeather, WeatherCache.get, hm, hup] at hres ⊢
            exact hres
        | ok raw => simp [getCurrentWeather, WeatherCache.get, hm, hup] at hres
    | some entry =>
        by_cases hfr : tg - entry.timestamp < st.cacheDuration
        · simp [getCurrentWeather, WeatherCache.get, hm, hfr] at hres
        · cases hup : up.current L with
          | error e' =>
              simp [getCurrentWeather, WeatherCache.get, hm, hfr, hup]
                at hres ⊢
              exact ⟨hres, mapGet_mapDelete_self _ _ hwf⟩
          | ok raw =>
              simp [getCurrentWeather, WeatherCache.get, hm, hfr, hup] at hres
  · intro s m hs hm
    simp [errorHandler, jsOrNat, jsOrString, hs, hm]

/-- Witness for C7: a concrete 401 "Invalid key" forecast failure from
an empty cache issues one upstream call and caches nothing. -/
theorem upstream_error_propagation_witness :
    sampleUpstream.forecastDays "Tokyo" 3
        = .error ⟨some 401, some "Invalid key"⟩
  ∧ (getForecast sampleUpstream (WeatherCache.mkCache CacheValue 900000)
      "Tokyo" 3 0 0).upstreamCalls = 1
  ∧ mapGet (getForecast sampleUpstream
      (WeatherCache.mkCache CacheValue 900000) "Tokyo" 3 0 0).cache.cache
      (forecastKey "Tokyo" 3) = none :=
  upstream_error_propagation.1 sampleUpstream
    (WeatherCache.mkCache CacheValue 900000) "Tokyo" 3 0 0
    ⟨some 401, some "Invalid key"⟩ List.Pairwise.nil rfl

/-- Counterexample to Claim C8 as stated: `?days=0` parses to the
integer 0, yet the route computes `parseInt(days) || 3` and therefore
invokes `getForecast` with 3, not with the parsed integer. -/
theorem forecast_route_parsed_counterexample :
    ¬ (∀ (s : String) (n : Int), jsParseInt s = some n →
        forecastRouteDays (some s) = n) := by
  intro h
  have h0 : jsParseInt "0" = some 0 := by decide
  have h3 : forecastRouteDays (some "0") = 3 := by decide
  have := h "0" 0 h0
  rw [h3] at this
  exact absurd this (by decide)

/-- Claim C8 (amended): the forecast route invokes `getForecast` with
the day count computed as `parseInt(days) || 3`: the parsed integer
whenever it is nonzero, and the default 3 whenever the `days` query
parameter is absent, non-numeric, or parses to 0. -/
theorem forecast_route_days_spec :
    (∀ (up : Upstream) (st : WeatherCache CacheValue) (L : String)
        (p : Option String) (tg ts : Nat),
      forecastRoute up st L p tg ts
        = getForecast up st L (forecastRouteDays p) tg ts)
  ∧ forecastRouteDays none = 3
  ∧ (∀ s : String, jsParseInt s = none → forecastRouteDays (some s) = 3)
  ∧ (∀ (s : String) (n : Int), jsParseInt s = some n → n ≠ 0 →
      forecastRouteDays (some s) = n) := by
  refine ⟨fun _ _ _ _ _ _ => rfl, rfl, ?_, ?_⟩
  · intro s hs
    simp [forecastRouteDays, jsOrInt, hs]
  · intro s n hs hn
    simp [forecastRouteDays, jsOrInt, hs, hn]

/-- Witness for C8: `?days=5` parses to 5 and is passed through. -/
theorem forecast_route_days_spec_witness :
    forecastRouteDays (some "5") = 5 :=
  forecast_route_days_spec.2.2.2 "5" 5 (by decide) (by decide)

/-- Claim C9: the location of every `ForecastResponse` built by
`getForecast` carries only name, region, country, lat and lon, with
`localTime` never populated, although the snapshot built by
`getCurrentWeather` populates it from the provider's `localtime`. -/
theorem forecast_location_no_localtime (p : RawForecastPayload)
    (q : RawCurrentPayload) :
    (mapForecastPayload p).location.localTime = none
  ∧ (mapForecastPayload p).location.name = p.location.name
  ∧ (mapForecastPayload p).location.region = p.location.region
  ∧ (mapForecastPayload p).location.country = p.location.country
  ∧ (mapForecastPayload p).location.lat = p.location.lat
  ∧ (mapForecastPayload p).location.lon = p.location.lon
  ∧ (mapCurrentPayload q).location.localTime = some q.location.localtime :=
  ⟨rfl, rfl, rfl, rfl, rfl, rfl, rfl⟩

/-- Claim C10: a `days` parameter that parses to 0 is replaced by the
default 3 (`parseInt(days) || 3` with 0 falsy), while negative parsed
values are passed through to `getForecast` unvalidated. -/
theorem forecast_route_zero_falsy :
    jsParseInt "0" = some 0
  ∧ forecastRouteDays (some "0") = 3
  ∧ (∀ (s : String) (n : Int), jsParseInt s = some n → n < 0 →
      ∀ (up : Upstream) (st : WeatherCache CacheValue) (L : String)
        (tg ts : Nat),
        forecastRoute up st L (some s) tg ts
          = getForecast up st L n tg ts) := by
  refine ⟨by decide, by decide, ?_⟩
  intro s n hs hn up st L tg ts
  have hne : n ≠ 0 := by omega
  have hd : forecastRouteDays (some s) = n := by
    simp [forecastRouteDays, jsOrInt, hs, hne]
  rw [forecastRoute, hd]

/-- Witness for C10: `?days=-2` is passed through as -2. -/
theorem forecast_route_zero_falsy_witness :
    forecastRoute sampleUpstream (WeatherCache.mkCache CacheValue 900000)
      "Tokyo" (some "-2") 0 0
      = getForecast sampleUpstream (WeatherCache.mkCache CacheValue 900000)
          "Tokyo" (-2) 0 0 :=
  forecast_route_zero_falsy.2.2 "-2" (-2) (by decide) (by decide)
    sampleUpstream (WeatherCache.mkCache CacheValue 900000) "Tokyo" 0 0
